import Mathlib

/-!
Shallow embedding of the signal lifecycle engine of the
hyperliquid-signal-system repository: price-level computation and the
stop-loss/take-profit monitoring state machine
(src/backend/shared/database.ts), PnL and outcome classification
(src/backend/shared/performance.ts), the idempotency key and retry
wrapper (src/backend/shared/utils.ts), and position ingestion
(src/backend/workers/ingestion/src/index.ts).

JavaScript numbers are modelled as rationals, statuses and directions as
the same string values the code uses, and the relevant database rows as
explicit record state threaded through the step functions.
-/

namespace HLSignals

/-! ### performance.ts -/

/-- `PerformanceCalculator.calculatePnL` (performance.ts lines 24-40):
directional price delta times size, minus
`fundingRate * positionSize * entryPrice * (durationHours / 8)`.
The source applies neither `Math.abs` nor `Math.ceil` to the funding term. -/
def calculatePnL (entryPrice exitPrice positionSize : ℚ) (signalType : String)
    (fundingRate : ℚ := 0) (durationHours : ℚ := 0) : ℚ :=
  let directionMultiplier : ℚ := if signalType = "LONG" then 1 else -1
  let priceDiff := exitPrice - entryPrice
  let tradePnL := directionMultiplier * priceDiff * positionSize
  let fundingCost := fundingRate * positionSize * entryPrice * (durationHours / 8)
  tradePnL - fundingCost

/-- The PnL formula as the specification words it: the funding cost uses
`⌈durationHours / 8⌉` funding periods and is always subtracted in absolute
value. Stated only to compare against `calculatePnL` from the source. -/
def specClaimPnL (entryPrice exitPrice positionSize : ℚ) (signalType : String)
    (fundingRate : ℚ) (durationHours : ℚ) : ℚ :=
  let directionMultiplier : ℚ := if signalType = "LONG" then 1 else -1
  directionMultiplier * (exitPrice - entryPrice) * positionSize -
    |fundingRate * positionSize * entryPrice * ((⌈durationHours / 8⌉ : ℤ) : ℚ)|

/-- `PerformanceCalculator.determineOutcome` (performance.ts lines 62-72). -/
def determineOutcome (status : String) (pnl : ℚ) : String :=
  if status = "TP_HIT" then "WIN"
  else if status = "SL_HIT" then "LOSS"
  else if status = "PARTIAL_TP" then "PARTIAL"
  else if pnl > 0 then "WIN" else "LOSS"

/-! ### database.ts : price levels and the monitoring state machine -/

/-- `calculatePriceLevels` (database.ts lines 541-561): absolute stop-loss
price and take-profit prices from the reference entry price, direction-aware.
The first component is `stopLossPrice`, the second `targetPrices`. -/
def calculatePriceLevels (entryPrice stopLossPercent : ℚ) (targets : List ℚ)
    (signalType : String) : ℚ × List ℚ :=
  if signalType = "LONG" then
    (entryPrice * (1 + stopLossPercent / 100),
     targets.map (fun tp => entryPrice * (1 + tp / 100)))
  else
    (entryPrice * (1 - |stopLossPercent| / 100),
     targets.map (fun tp => entryPrice * (1 - tp / 100)))

/-- `isStopLossHit` (database.ts lines 563-569). -/
def isStopLossHit (currentPrice stopLossPrice : ℚ) (signalType : String) : Bool :=
  if signalType = "LONG" then decide (currentPrice ≤ stopLossPrice)
  else decide (currentPrice ≥ stopLossPrice)

/-- One signal row together with its `signal_targets` rows: the `is_hit`
flag of target index `i` is `hitFlags.getD i false` (a missing row reads
as not hit, mirroring `targetStatus.get(i) || false`). -/
structure SignalRow where
  status : String
  entry_price : ℚ
  stop_loss : ℚ
  targets : List ℚ
  type : String
  hitFlags : List Bool
  deriving DecidableEq, Repr

/-- `checkTakeProfitHits` (database.ts lines 571-615): the indices of the
not-yet-hit targets the current price reaches, in ascending index order. -/
def checkTakeProfitHits (currentPrice : ℚ) (targetPrices : List ℚ)
    (signalType : String) (hitFlags : List Bool) : List Nat :=
  (List.range targetPrices.length).filter (fun i =>
    !(hitFlags.getD i false) &&
      (if signalType = "LONG" then decide (currentPrice ≥ targetPrices.getD i 0)
       else decide (currentPrice ≤ targetPrices.getD i 0)))

/-- The loop of `db.updateSignalTarget(signalId, tpIndex, true)` calls in
`handleTakeProfitHits` (database.ts lines 674-677). -/
def updateSignalTargets (hitFlags : List Bool) (tpHits : List Nat) : List Bool :=
  tpHits.foldl (fun flags i => flags.set i true) hitFlags

/-- `checkAllTargetsHit` (database.ts lines 720-734): `hitCount >= totalTargets`
on the stored `is_hit` flags. -/
def checkAllTargetsHit (hitFlags : List Bool) (totalTargets : Nat) : Bool :=
  decide (totalTargets ≤ hitFlags.count true)

/-- `handleTakeProfitHits` (database.ts lines 660-718): mark the newly hit
rungs, then set status `TP_HIT` when every target is hit, else `PARTIAL_TP`. -/
def handleTakeProfitHits (s : SignalRow) (tpHits : List Nat) : SignalRow :=
  let newFlags := updateSignalTargets s.hitFlags tpHits
  let allTargetsHit := checkAllTargetsHit newFlags s.targets.length
  { s with hitFlags := newFlags,
           status := if allTargetsHit then "TP_HIT" else "PARTIAL_TP" }

/-- `processSignalPriceCheck` (database.ts lines 498-539): on a stop-loss
hit the status becomes `SL_HIT` and target evaluation is skipped
(`return` after `handleStopLossHit`); otherwise newly reached rungs are
marked and the status advanced. -/
def processSignalPriceCheck (s : SignalRow) (currentPrice : ℚ) : SignalRow :=
  let levels := calculatePriceLevels s.entry_price s.stop_loss s.targets s.type
  if isStopLossHit currentPrice levels.1 s.type then
    { s with status := "SL_HIT" }
  else
    let tpHits := checkTakeProfitHits currentPrice levels.2 s.type s.hitFlags
    if tpHits.isEmpty then s else handleTakeProfitHits s tpHits

/-- One scheduled monitoring cycle as seen by a single signal:
`DatabaseManager.getActiveSignals` (database.ts lines 223-239) selects only
rows with `status = 'OPEN'`, and `monitorActivePrices` runs
`processSignalPriceCheck` once on each selected signal; a signal whose
status is not `OPEN` is not fetched and its row is untouched. -/
def monitorSignalCycle (s : SignalRow) (currentPrice : ℚ) : SignalRow :=
  if s.status = "OPEN" then processSignalPriceCheck s currentPrice else s

/-! ### utils.ts : idempotency key and retry wrapper -/

/-- The base64 alphabet used by `btoa`. -/
def base64Chars : List Char :=
  "ABCDEFGHIJKLMNOPQRSTUVWXYZabcdefghijklmnopqrstuvwxyz0123456789+/".toList

def b64Char (n : Nat) : Char := base64Chars.getD n 'A'

/-- Standard base64 encoding of a byte list (values < 256), with `=` padding,
as performed by the JavaScript `btoa` builtin. -/
def base64Encode : List Nat → List Char
  | [] => []
  | [a] => [b64Char (a / 4), b64Char (a % 4 * 16), '=', '=']
  | [a, b] => [b64Char (a / 4), b64Char (a % 4 * 16 + b / 16), b64Char (b % 16 * 4), '=']
  | a :: b :: c :: rest =>
    b64Char (a / 4) :: b64Char (a % 4 * 16 + b / 16) ::
      b64Char (b % 16 * 4 + c / 64) :: b64Char (c % 64) :: base64Encode rest

/-- `btoa`: base64 over the string's code units (the strings involved are
ASCII, where code units and code points agree). -/
def btoa (s : String) : String :=
  String.mk (base64Encode (s.data.map Char.toNat))

/-- `generateEventId` (utils.ts lines 141-145): base64 of
`wallet-pair-direction-minute` with non-alphanumeric characters removed and
truncated to 32 characters; the minute is `Math.floor(timestamp / 60000)`. -/
def generateEventId (walletAddress pair : String) (timestamp : Nat)
    (direction : String) : String :=
  let data := walletAddress ++ "-" ++ pair ++ "-" ++ direction ++ "-" ++
    toString (timestamp / 60000)
  String.mk (((btoa data).data.filter (fun c => c.isAlpha || c.isDigit)).take 32)

/-- `calculateNotionalValue` (utils.ts lines 152-154). -/
def calculateNotionalValue (price size : ℚ) (contractMultiplier : ℚ := 1) : ℚ :=
  price * size * contractMultiplier

/-- The error values visible to `withRetry`: an `ApiError` carries an
optional numeric `status` (absent/0 is falsy in JavaScript), a
`RetryableError` (timeouts), or anything else. -/
inductive JsError where
  | apiError (status : Option Nat)
  | retryableError
  | other
  deriving DecidableEq, Repr

/-- The guard `error instanceof ApiError && error.status && error.status < 500`
of `withRetry` (utils.ts line 44): a truthy status below 500 is thrown to
the caller without retrying. -/
def isNonRetryable : JsError → Bool
  | .apiError (some s) => decide (s ≠ 0) && decide (s < 500)
  | _ => false

/-- The delay computed before a retry (utils.ts lines 52-55), before the
random jitter is added: `min(baseDelay * backoffMultiplier ^ attempt, maxDelay)`. -/
def retryDelay (baseDelay backoffMultiplier maxDelay : ℚ) (attempt : Nat) : ℚ :=
  min (baseDelay * backoffMultiplier ^ attempt) maxDelay

/-- The retry loop of `withRetry` (utils.ts lines 37-63): `attempt` is the
current iteration index, `remaining` the number of further attempts allowed
(`remaining = 0` corresponds to `attempt === maxRetries`). `op n` is the
outcome of the `n`-th invocation of the wrapped operation. -/
def runRetry (op : Nat → Except JsError α) : Nat → Nat → Except JsError α
  | attempt, remaining =>
    match op attempt with
    | .ok v => .ok v
    | .error e =>
      if isNonRetryable e then .error e
      else
        match remaining with
        | 0 => .error e
        | r + 1 => runRetry op (attempt + 1) r

/-- `withRetry` (utils.ts lines 26-66): run the loop from attempt 0 with
`maxRetries` further attempts allowed. -/
def withRetry (op : Nat → Except JsError α) (maxRetries : Nat) : Except JsError α :=
  runRetry op 0 maxRetries

/-! ### workers/ingestion/src/index.ts : position ingestion -/

/-- One parsed `position` object of a Hyperliquid `assetPositions` entry:
`szi` (signed size), `entryPx`, `leverage.value`. -/
structure HlPosition where
  szi : ℚ
  entryPx : ℚ
  leverage : Nat
  deriving DecidableEq, Repr

/-- One entry of `clearinghouseState.assetPositions`. -/
structure AssetPosition where
  coin : String
  position : Option HlPosition
  deriving DecidableEq, Repr

/-- One recent fill of a wallet: `coin`, `side` (`'B'` implies LONG),
`px`, `time`. -/
structure Fill where
  coin : String
  side : String
  px : ℚ
  time : Nat
  deriving DecidableEq, Repr

/-- The configuration fields `processPosition` reads. -/
structure IngestConfig where
  ignored_pairs : List String
  monitored_pairs : List String
  min_trade_size : ℚ
  required_leverage_min : Nat
  deriving DecidableEq, Repr

/-- The `WalletPosition` record built by `processPosition`
(index.ts lines 202-214). -/
structure WalletPosition where
  wallet_address : String
  pair : String
  position_type : String
  entry_timestamp : Nat
  entry_price : ℚ
  trade_size : ℚ
  leverage : Nat
  funding_rate : ℚ
  last_updated : Nat
  open_event_id : String
  deriving DecidableEq, Repr

/-- The durable state `processPosition` touches: the `ingested_events`
idempotency-key table, the `wallet_positions` table, and the signal queue. -/
structure IngestState where
  events : List String
  positions : List WalletPosition
  queue : List WalletPosition
  deriving DecidableEq, Repr

/-- Whether `processPosition` completed normally (every early `return`
included) or raised. -/
inductive IngestResult where
  | ok
  | error
  deriving DecidableEq, Repr

/-- The matching predicate inside `findRelevantFill` (index.ts lines 240-247):
same coin, and the fill's implied direction (`side === 'B'` means LONG,
anything else SHORT) equals the position type. -/
def fillMatches (f : Fill) (pair positionType : String) : Bool :=
  decide (f.coin = pair) &&
    decide ((if f.side = "B" then "LONG" else "SHORT") = positionType)

/-- `findRelevantFill` (index.ts lines 234-252): null fills give null;
otherwise the matching fills are sorted most-recent-first
(`sort((a, b) => b.time - a.time)`, a stable sort) and the head returned. -/
def findRelevantFill (userFills : Option (List Fill)) (pair positionType : String) :
    Option Fill :=
  match userFills with
  | none => none
  | some fills =>
    let recentFills :=
      (fills.filter (fun f => fillMatches f pair positionType)).mergeSort
        (fun a b => decide (b.time ≤ a.time))
    recentFills.head?

/-- `const positionType = currentSize > 0 ? 'LONG' : 'SHORT'`
(index.ts line 163). -/
def positionTypeOf (currentSize : ℚ) : String :=
  if currentSize > 0 then "LONG" else "SHORT"

/-- `const entryTimestamp = relevantFill ? relevantFill.time : Date.now()`
(index.ts line 181). -/
def entryTimestampOf (relevantFill : Option Fill) (now : Nat) : Nat :=
  match relevantFill with
  | some f => f.time
  | none => now

/-- `const actualEntryPrice = relevantFill ? parseFloat(relevantFill.px) : entryPx`
(index.ts line 182). -/
def actualEntryPriceOf (relevantFill : Option Fill) (entryPx : ℚ) : ℚ :=
  match relevantFill with
  | some f => f.px
  | none => entryPx

/-- The idempotency key `processPosition` computes for a snapshot position
(index.ts lines 179-185), named so the riders below can refer to it. -/
def ingestionEventId (walletAddress pair : String) (currentSize : ℚ)
    (userFills : Option (List Fill)) (now : Nat) : String :=
  generateEventId walletAddress pair
    (entryTimestampOf (findRelevantFill userFills pair (positionTypeOf currentSize)) now)
    (positionTypeOf currentSize)

/-- `processPosition` (index.ts lines 127-232) as a step function on the
durable state. `now` stands for `Date.now()`, `fundingRate` for the fetched
funding rate (0 on failure, lines 193-200), and the two flags pick the
outcome of the two independent writes of
`Promise.all([db.saveWalletPosition(newPosition), db.saveEvent(eventId)])`
(lines 216-220): `saveWalletPosition` rethrows its failure while `saveEvent`
swallows its own (database.ts lines 282-293), so a `saveEvent` failure only
loses the key, and a `saveWalletPosition` failure rejects the whole call
after both statements were issued. -/
def processPosition (walletAddress : String) (assetPosition : AssetPosition)
    (userFills : Option (List Fill)) (config : IngestConfig) (st : IngestState)
    (now : Nat) (fundingRate : ℚ) (savePositionFails saveEventFails : Bool) :
    IngestState × IngestResult :=
  let pair := assetPosition.coin
  match assetPosition.position with
  | none => (st, .ok)
  | some position =>
    let currentSize := position.szi
    let entryPx := position.entryPx
    let leverage := position.leverage
    if currentSize = 0 then (st, .ok)
    else if pair ∈ config.ignored_pairs then (st, .ok)
    else if config.monitored_pairs ≠ [] ∧ pair ∉ config.monitored_pairs then (st, .ok)
    else
      let positionType := positionTypeOf currentSize
      let absSize := |currentSize|
      let notionalValue := calculateNotionalValue entryPx absSize
      if notionalValue < config.min_trade_size then (st, .ok)
      else if leverage < config.required_leverage_min then (st, .ok)
      else
        let relevantFill := findRelevantFill userFills pair positionType
        let entryTimestamp := entryTimestampOf relevantFill now
        let actualEntryPrice := actualEntryPriceOf relevantFill entryPx
        let eventId := generateEventId walletAddress pair entryTimestamp positionType
        if eventId ∈ st.events then (st, .ok)
        else
          let newPosition : WalletPosition :=
            { wallet_address := walletAddress
              pair := pair
              position_type := positionType
              entry_timestamp := entryTimestamp
              entry_price := actualEntryPrice
              trade_size := absSize
              leverage := leverage
              funding_rate := fundingRate
              last_updated := now
              open_event_id := eventId }
          let stAfterPosition :=
            if savePositionFails then st
            else { st with positions := st.positions ++ [newPosition] }
          let stAfterEvent :=
            if saveEventFails then stAfterPosition
            else { stAfterPosition with events := stAfterPosition.events ++ [eventId] }
          if savePositionFails then (stAfterEvent, .error)
          else ({ stAfterEvent with queue := stAfterEvent.queue ++ [newPosition] }, .ok)

/-! ### Concrete rows used by the claims below -/

/-- The LONG signal of the take-profit ladder example: reference price 100,
targets 2%, 3.5% and 5%, no rung hit yet. -/
def c2SignalRow : SignalRow :=
  { status := "OPEN", entry_price := 100, stop_loss := -2.5,
    targets := [2, 3.5, 5], type := "LONG", hitFlags := [false, false, false] }

/-! ## Helper lemmas -/

lemma getD_set_true (flags : List Bool) (j i : Nat)
    (h : flags.getD i false = true) : (flags.set j true).getD i false = true := by
  induction flags generalizing i j with
  | nil => simp at h
  | cons b bs ih =>
    cases j with
    | zero =>
      cases i with
      | zero => simp
      | succ i => simpa using h
    | succ j =>
      cases i with
      | zero => simpa using h
      | succ i => simpa using ih _ _ (by simpa using h)

lemma updateSignalTargets_mono (tpHits : List Nat) (flags : List Bool) (i : Nat)
    (h : flags.getD i false = true) :
    (updateSignalTargets flags tpHits).getD i false = true := by
  induction tpHits generalizing flags with
  | nil => simpa [updateSignalTargets] using h
  | cons j js ih =>
    simpa [updateSignalTargets] using ih (flags.set j true) (getD_set_true flags j i h)

lemma monitorSignalCycle_flags_mono (s : SignalRow) (p : ℚ) (i : Nat)
    (h : s.hitFlags.getD i false = true) :
    (monitorSignalCycle s p).hitFlags.getD i false = true := by
  unfold monitorSignalCycle
  split
  · simp only [processSignalPriceCheck]
    split
    · simpa using h
    · split
      · simpa using h
      · simp only [handleTakeProfitHits]
        simpa using updateSignalTargets_mono _ _ _ h
  · simpa using h

lemma checkTakeProfitHits_sorted (price : ℚ) (tps : List ℚ) (ty : String)
    (flags : List Bool) : (checkTakeProfitHits price tps ty flags).Sorted (· < ·) := by
  unfold checkTakeProfitHits
  exact (List.pairwise_lt_range _).sublist (List.filter_sublist _)

lemma runRetry_ok (op : Nat → Except JsError α) (v : α) :
    ∀ (k attempt remaining : Nat), k ≤ remaining →
      (∀ j, j < k → ∃ e, op (attempt + j) = .error e ∧ isNonRetryable e = false) →
      op (attempt + k) = .ok v → runRetry op attempt remaining = .ok v := by
  intro k
  induction k with
  | zero =>
    intro attempt remaining _ _ hok
    rw [runRetry]
    simp only [Nat.add_zero] at hok
    rw [hok]
  | succ k ih =>
    intro attempt remaining hle hj hok
    obtain ⟨e, he, hnr⟩ := hj 0 (Nat.succ_pos k)
    simp only [Nat.add_zero] at he
    cases remaining with
    | zero => omega
    | succ r =>
      rw [runRetry]
      simp [he, hnr]
      exact ih (attempt + 1) r (by omega)
        (fun j hjk => by
          obtain ⟨e', he', hnr'⟩ := hj (j + 1) (by omega)
          refine ⟨e', ?_, hnr'⟩
          have hadd : attempt + 1 + j = attempt + (j + 1) := by omega
          rw [hadd]; exact he')
        (by
          have hadd : attempt + 1 + k = attempt + (k + 1) := by omega
          rw [hadd]; exact hok)

lemma runRetry_congr (op1 op2 : Nat → Except JsError α) :
    ∀ (remaining attempt : Nat),
      (∀ j, j ≤ remaining → op1 (attempt + j) = op2 (attempt + j)) →
      runRetry op1 attempt remaining = runRetry op2 attempt remaining := by
  intro remaining
  induction remaining with
  | zero =>
    intro attempt h
    have h0 := h 0 (Nat.le_refl 0)
    simp only [Nat.add_zero] at h0
    rw [runRetry, runRetry, h0]
  | succ r ih =>
    intro attempt h
    have h0 := h 0 (Nat.zero_le _)
    simp only [Nat.add_zero] at h0
    rw [runRetry, runRetry, h0]
    cases hop : op2 attempt with
    | ok v => rfl
    | error e =>
      by_cases hnr : isNonRetryable e = true
      · simp [hnr]
      · simp only [Bool.not_eq_true] at hnr
        simp [hnr]
        exact ih (attempt + 1)
          (fun j hj => by
            have hh := h (j + 1) (by omega)
            have hadd : attempt + 1 + j = attempt + (j + 1) := by omega
            rw [hadd]; exact hh)

/-! ## Claims -/

/-- C1: the absolute stop-loss price is direction-aware —
`reference * (1 + stopLossPercent / 100)` for LONG and
`reference * (1 - |stopLossPercent| / 100)` for SHORT — and the stop-loss
is judged hit exactly when the current price is ≤ the stop price for LONG
and ≥ it for SHORT; for the LONG signal at reference 2450.50 with stop-loss
−2.5 the stop price is 2450.50 × 0.975, price 2388.00 triggers it and
price 2400.00 does not. -/
theorem C1_stop_loss_direction :
    (∀ entry sl targets,
      (calculatePriceLevels entry sl targets "LONG").1 = entry * (1 + sl / 100)) ∧
    (∀ entry sl targets,
      (calculatePriceLevels entry sl targets "SHORT").1 = entry * (1 - |sl| / 100)) ∧
    (∀ cp slp, isStopLossHit cp slp "LONG" = decide (cp ≤ slp)) ∧
    (∀ cp slp, isStopLossHit cp slp "SHORT" = decide (cp ≥ slp)) ∧
    (calculatePriceLevels 2450.50 (-2.5) [2] "LONG").1 = 2450.50 * 0.975 ∧
    isStopLossHit 2388 ((calculatePriceLevels 2450.50 (-2.5) [2] "LONG").1) "LONG" = true ∧
    isStopLossHit 2400 ((calculatePriceLevels 2450.50 (-2.5) [2] "LONG").1) "LONG" = false := by
  refine ⟨?_, ?_, ?_, ?_, ?_, ?_, ?_⟩
  · intro entry sl targets; simp [calculatePriceLevels]
  · intro entry sl targets; simp [calculatePriceLevels]
  · intro cp slp; simp [isStopLossHit]
  · intro cp slp; simp [isStopLossHit]
  · norm_num [calculatePriceLevels]
  · norm_num [calculatePriceLevels, isStopLossHit]
  · norm_num [calculatePriceLevels, isStopLossHit]

/-- C2 counterexample: on the claim's own sweep 101, 103, 106 over the LONG
signal at reference 100 with targets [2, 3.5, 5], the first cycle hits no
rung (101 < 102) and leaves the signal OPEN, the second hits rung 0 and
moves the signal to PARTIAL_TP, and the third does not evaluate the signal
at all because `getActiveSignals` only selects rows with status OPEN — so
the run ends at PARTIAL_TP with rungs 1 and 2 unhit, not at TP_HIT. -/
theorem C2_counterexample :
    monitorSignalCycle c2SignalRow 101 = c2SignalRow ∧
    (monitorSignalCycle c2SignalRow 101).status ≠ "PARTIAL_TP" ∧
    monitorSignalCycle (monitorSignalCycle c2SignalRow 101) 103 =
      { c2SignalRow with status := "PARTIAL_TP", hitFlags := [true, false, false] } ∧
    monitorSignalCycle (monitorSignalCycle (monitorSignalCycle c2SignalRow 101) 103) 106 =
      { c2SignalRow with status := "PARTIAL_TP", hitFlags := [true, false, false] } ∧
    (monitorSignalCycle (monitorSignalCycle (monitorSignalCycle c2SignalRow 101) 103) 106).status ≠
      "TP_HIT" ∧
    (monitorSignalCycle (monitorSignalCycle (monitorSignalCycle c2SignalRow 101) 103)
        106).hitFlags.getD 1 false = false := by
  have h1 : monitorSignalCycle c2SignalRow 101 = c2SignalRow := by
    simp [monitorSignalCycle, processSignalPriceCheck, calculatePriceLevels,
          isStopLossHit, checkTakeProfitHits, List.range_succ, c2SignalRow]
    norm_num
  have h2 : monitorSignalCycle c2SignalRow 103 =
      { c2SignalRow with status := "PARTIAL_TP", hitFlags := [true, false, false] } := by
    simp [monitorSignalCycle, processSignalPriceCheck, calculatePriceLevels,
          isStopLossHit, checkTakeProfitHits, handleTakeProfitHits,
          updateSignalTargets, checkAllTargetsHit, List.range_succ, c2SignalRow]
    norm_num
  have h3 : monitorSignalCycle
      { c2SignalRow with status := "PARTIAL_TP", hitFlags := [true, false, false] } 106 =
      { c2SignalRow with status := "PARTIAL_TP", hitFlags := [true, false, false] } := by
    simp [monitorSignalCycle, c2SignalRow]
  rw [h1, h2, h3]
  refine ⟨rfl, by simp [c2SignalRow], rfl, rfl, by simp, by simp⟩

/-- C2 amended: the transition function runs once per cycle on each signal
whose status is OPEN — and only on those, a PARTIAL_TP signal is no longer
fetched; rungs are marked in ascending index order and hit flags are never
un-set; on the example sweep 101, 103, 106 the signal stays OPEN after the
first cycle, reaches PARTIAL_TP with rung 0 hit after the second, and is
left untouched by the third. -/
theorem C2_amended :
    (∀ s p, s.status = "OPEN" → monitorSignalCycle s p = processSignalPriceCheck s p) ∧
    (∀ s p, s.status ≠ "OPEN" → monitorSignalCycle s p = s) ∧
    (∀ s p i, s.hitFlags.getD i false = true →
      (monitorSignalCycle s p).hitFlags.getD i false = true) ∧
    (∀ price tps ty flags, (checkTakeProfitHits price tps ty flags).Sorted (· < ·)) ∧
    monitorSignalCycle c2SignalRow 101 = c2SignalRow ∧
    monitorSignalCycle (monitorSignalCycle c2SignalRow 101) 103 =
      { c2SignalRow with status := "PARTIAL_TP", hitFlags := [true, false, false] } ∧
    monitorSignalCycle (monitorSignalCycle (monitorSignalCycle c2SignalRow 101) 103) 106 =
      { c2SignalRow with status := "PARTIAL_TP", hitFlags := [true, false, false] } := by
  have h1 : monitorSignalCycle c2SignalRow 101 = c2SignalRow := by
    simp [monitorSignalCycle, processSignalPriceCheck, calculatePriceLevels,
          isStopLossHit, checkTakeProfitHits, List.range_succ, c2SignalRow]
    norm_num
  have h2 : monitorSignalCycle c2SignalRow 103 =
      { c2SignalRow with status := "PARTIAL_TP", hitFlags := [true, false, false] } := by
    simp [monitorSignalCycle, processSignalPriceCheck, calculatePriceLevels,
          isStopLossHit, checkTakeProfitHits, handleTakeProfitHits,
          updateSignalTargets, checkAllTargetsHit, List.range_succ, c2SignalRow]
    norm_num
  have h3 : monitorSignalCycle
      { c2SignalRow with status := "PARTIAL_TP", hitFlags := [true, false, false] } 106 =
      { c2SignalRow with status := "PARTIAL_TP", hitFlags := [true, false, false] } := by
    simp [monitorSignalCycle, c2SignalRow]
  refine ⟨?_, ?_, monitorSignalCycle_flags_mono, checkTakeProfitHits_sorted,
          h1, by rw [h1, h2], by rw [h1, h2, h3]⟩
  · intro s p h; simp [monitorSignalCycle, h]
  · intro s p h; simp [monitorSignalCycle, h]

/-- C2 amended, witness: concrete instances of each hypothesis-guarded part
of the amended claim, at the example signal. -/
theorem C2_amended_witness :
    c2SignalRow.status = "OPEN" ∧
    monitorSignalCycle c2SignalRow 101 = processSignalPriceCheck c2SignalRow 101 ∧
    ({ c2SignalRow with status := "SL_HIT" } : SignalRow).status ≠ "OPEN" ∧
    monitorSignalCycle { c2SignalRow with status := "SL_HIT" } 101 =
      { c2SignalRow with status := "SL_HIT" } ∧
    ({ c2SignalRow with hitFlags := [true, false, false] } : SignalRow).hitFlags.getD 0 false =
      true ∧
    (monitorSignalCycle { c2SignalRow with hitFlags := [true, false, false] }
        103).hitFlags.getD 0 false = true :=
  ⟨rfl, C2_amended.1 c2SignalRow 101 rfl,
   by simp [c2SignalRow], C2_amended.2.1 _ 101 (by simp [c2SignalRow]),
   rfl, C2_amended.2.2.1 _ 103 0 rfl⟩

/-- C3: a signal whose status is SL_HIT is never fetched again, so no later
cycle marks a target or changes its status; in the cycle that detects the
stop-loss the function returns right after setting SL_HIT, leaving every
hit flag untouched; a signal that has left OPEN keeps its status; and a
cycle that ends in TP_HIT is one in which the stop-loss comparison was
false, so a stop-loss crossing and a completed ladder cannot both close
the signal. -/
theorem C3_sl_terminal :
    (∀ s p, s.status = "SL_HIT" → monitorSignalCycle s p = s) ∧
    (∀ s p, s.status = "OPEN" →
      isStopLossHit p (calculatePriceLevels s.entry_price s.stop_loss s.targets s.type).1
        s.type = true →
      monitorSignalCycle s p = { s with status := "SL_HIT" }) ∧
    (∀ s p, s.status ≠ "OPEN" → (monitorSignalCycle s p).status = s.status) ∧
    (∀ s p, (monitorSignalCycle s p).status = "SL_HIT" →
      (monitorSignalCycle s p).hitFlags = s.hitFlags) ∧
    (∀ s p, s.status = "OPEN" → (monitorSignalCycle s p).status = "TP_HIT" →
      isStopLossHit p (calculatePriceLevels s.entry_price s.stop_loss s.targets s.type).1
        s.type = false) := by
  refine ⟨?_, ?_, ?_, ?_, ?_⟩
  · intro s p h
    simp [monitorSignalCycle, h]
  · intro s p hOpen hSL
    simp [monitorSignalCycle, hOpen, processSignalPriceCheck, hSL]
  · intro s p h
    simp [monitorSignalCycle, h]
  · intro s p
    by_cases hOpen : s.status = "OPEN"
    · simp only [monitorSignalCycle, hOpen, if_pos, processSignalPriceCheck]
      split
      · intro _; rfl
      · split
        · intro _; rfl
        · simp only [handleTakeProfitHits]
          split <;> · intro hc; simp at hc
    · simp [monitorSignalCycle, hOpen]
  · intro s p hOpen hTP
    cases hB : isStopLossHit p
        (calculatePriceLevels s.entry_price s.stop_loss s.targets s.type).1 s.type
    · rfl
    · exfalso
      rw [monitorSignalCycle, if_pos hOpen, processSignalPriceCheck] at hTP
      simp only [hB] at hTP
      simp at hTP

/-- C3 witness: concrete instances of every hypothesis-guarded part — an
SL_HIT signal is untouched at any price, an OPEN signal crossing its stop
becomes SL_HIT with flags intact, and a completed ladder happens only with
the stop-loss comparison false. -/
theorem C3_sl_terminal_witness :
    (⟨"SL_HIT", 100, -2.5, [2], "LONG", [false]⟩ : SignalRow).status = "SL_HIT" ∧
    monitorSignalCycle ⟨"SL_HIT", 100, -2.5, [2], "LONG", [false]⟩ 50 =
      ⟨"SL_HIT", 100, -2.5, [2], "LONG", [false]⟩ ∧
    isStopLossHit 90 (calculatePriceLevels 100 (-2.5) [2] "LONG").1 "LONG" = true ∧
    monitorSignalCycle ⟨"OPEN", 100, -2.5, [2], "LONG", [false]⟩ 90 =
      ⟨"SL_HIT", 100, -2.5, [2], "LONG", [false]⟩ ∧
    (monitorSignalCycle ⟨"SL_HIT", 100, -2.5, [2], "LONG", [false]⟩ 50).status = "SL_HIT" ∧
    (monitorSignalCycle ⟨"SL_HIT", 100, -2.5, [2], "LONG", [false]⟩ 50).hitFlags = [false] ∧
    (monitorSignalCycle ⟨"OPEN", 100, -2.5, [2], "LONG", [false]⟩ 110).status = "TP_HIT" ∧
    isStopLossHit 110 (calculatePriceLevels 100 (-2.5) [2] "LONG").1 "LONG" = false := by
  have hsl : isStopLossHit 90 (calculatePriceLevels 100 (-2.5) [2] "LONG").1 "LONG" = true := by
    norm_num [isStopLossHit, calculatePriceLevels]
  have htp : (monitorSignalCycle ⟨"OPEN", 100, -2.5, [2], "LONG", [false]⟩ 110).status =
      "TP_HIT" := by
    simp [monitorSignalCycle, processSignalPriceCheck, calculatePriceLevels,
          isStopLossHit, checkTakeProfitHits, handleTakeProfitHits,
          updateSignalTargets, checkAllTargetsHit, List.range_succ]
    norm_num
  refine ⟨rfl, C3_sl_terminal.1 _ 50 rfl, hsl, ?_, ?_, ?_, htp,
          C3_sl_terminal.2.2.2.2 _ 110 rfl htp⟩
  · exact C3_sl_terminal.2.1 ⟨"OPEN", 100, -2.5, [2], "LONG", [false]⟩ 90 rfl hsl
  · rw [C3_sl_terminal.1 _ 50 rfl]
  · exact C3_sl_terminal.2.2.2.1 _ 50 (by rw [C3_sl_terminal.1 _ 50 rfl])

/-- C4: the source's funding term is
`fundingRate * positionSize * entryPrice * (durationHours / 8)` with
neither `Math.ceil` nor `Math.abs`, so with a negative funding rate the
subtraction adds a credit: a flat LONG trade (entry = exit = 100, size 1)
held 4 hours at funding rate −0.01 yields +0.5 from the code, while the
claimed formula (absolute cost over ⌈4/8⌉ = 1 period) yields −1. -/
theorem C4_funding_credit :
    calculatePnL 100 100 1 "LONG" (-1/100) 4 = 1/2 ∧
    0 < calculatePnL 100 100 1 "LONG" (-1/100) 4 ∧
    specClaimPnL 100 100 1 "LONG" (-1/100) 4 = -1 := by
  refine ⟨by norm_num [calculatePnL], by norm_num [calculatePnL], ?_⟩
  norm_num [specClaimPnL]
  rw [show ⌈(1:ℚ)/2⌉ = 1 from by rw [Int.ceil_eq_iff]; norm_num]
  norm_num

/-- C5: with zero funding, a SHORT from 42100.00 to 41000.00 with size 1
yields exactly +1100.00 and the LONG mirror exactly −1100.00. -/
theorem C5_pnl_sign :
    calculatePnL 42100 41000 1 "SHORT" 0 0 = 1100 ∧
    calculatePnL 42100 41000 1 "LONG" 0 0 = -1100 := by
  constructor <;> · simp [calculatePnL]; norm_num

/-- C10: for any status other than TP_HIT, SL_HIT and PARTIAL_TP,
`determineOutcome` returns WIN exactly when the PnL is strictly positive
and LOSS otherwise; a manual close with PnL 0 is a LOSS. -/
theorem C10_manual_close_outcome :
    (∀ status pnl, status ≠ "TP_HIT" → status ≠ "SL_HIT" → status ≠ "PARTIAL_TP" →
      ((determineOutcome status pnl = "WIN" ↔ 0 < pnl) ∧
       (determineOutcome status pnl = "LOSS" ↔ ¬0 < pnl))) ∧
    determineOutcome "CLOSED_MANUAL" 0 = "LOSS" := by
  constructor
  · intro status pnl h1 h2 h3
    by_cases h : 0 < pnl <;> simp [determineOutcome, h1, h2, h3, h, gt_iff_lt]
  · rfl

/-- C10 witness: the manual-close branch at status CLOSED_MANUAL and
PnL 1/2. -/
theorem C10_manual_close_outcome_witness :
    ("CLOSED_MANUAL" : String) ≠ "TP_HIT" ∧ ("CLOSED_MANUAL" : String) ≠ "SL_HIT" ∧
    ("CLOSED_MANUAL" : String) ≠ "PARTIAL_TP" ∧
    (determineOutcome "CLOSED_MANUAL" (1/2) = "WIN" ↔ (0 : ℚ) < 1/2) :=
  ⟨by decide, by decide, by decide,
    (C10_manual_close_outcome.1 "CLOSED_MANUAL" (1/2) (by decide) (by decide) (by decide)).1⟩

/-- C8 counterexample: a rate-limited (429) response is not retried — an
operation whose first invocation fails with `ApiError` status 429 and whose
every later invocation would succeed still makes `withRetry` throw the 429
error: the guard `error.status && error.status < 500` classifies 429 as
non-retryable and rethrows it immediately. -/
theorem C8_counterexample :
    withRetry (fun n => if n = 0 then .error (.apiError (some 429)) else .ok 42) 3 =
      .error (.apiError (some 429)) := by
  rw [withRetry, runRetry]
  simp [isNonRetryable]

/-- C8 amended: any `ApiError` with a truthy status below 500 — 429
included — is thrown to the caller on first occurrence without retry;
errors the guard lets through (timeouts, 5xx) are retried until an attempt
succeeds, within the bound; the result depends only on the first
`maxRetries + 1` invocations, so the operation is invoked at most
`maxRetries + 1` times; and the pre-jitter delay
`min(baseDelay * backoffMultiplier ^ attempt, maxDelay)` is monotone in
the attempt index. -/
theorem C8_amended :
    (∀ (op : Nat → Except JsError Nat) mr e, op 0 = .error e → isNonRetryable e = true →
      withRetry op mr = .error e) ∧
    (∀ (op : Nat → Except JsError Nat) mr k v, k ≤ mr →
      (∀ j, j < k → ∃ e, op j = .error e ∧ isNonRetryable e = false) →
      op k = .ok v → withRetry op mr = .ok v) ∧
    (∀ (op1 op2 : Nat → Except JsError Nat) mr, (∀ j, j ≤ mr → op1 j = op2 j) →
      withRetry op1 mr = withRetry op2 mr) ∧
    isNonRetryable (.apiError (some 429)) = true ∧
    isNonRetryable (.apiError (some 500)) = false ∧
    isNonRetryable .retryableError = false ∧
    (∀ base mult maxd : ℚ, ∀ a b : Nat, 0 ≤ base → 1 ≤ mult → a ≤ b →
      retryDelay base mult maxd a ≤ retryDelay base mult maxd b) := by
  refine ⟨?_, ?_, ?_, by decide, by decide, by decide, ?_⟩
  · intro op mr e h0 hnr
    rw [withRetry, runRetry]
    simp [h0, hnr]
  · intro op mr k v hk hj hok
    exact runRetry_ok op v k 0 mr hk (by simpa using hj) (by simpa using hok)
  · intro op1 op2 mr h
    exact runRetry_congr op1 op2 mr 0 (by simpa using h)
  · intro base mult maxd a b hb hm hab
    unfold retryDelay
    refine min_le_min ?_ (le_refl _)
    exact mul_le_mul_of_nonneg_left (pow_le_pow_right₀ hm hab) hb

/-- C8 amended, witness: a 404 thrown immediately, a timeout retried to
success on the second attempt, invocation-prefix dependence, and the delay
growth, all at concrete inputs. -/
theorem C8_amended_witness :
    ((fun _ => .error (.apiError (some 404)) : Nat → Except JsError Nat) 0 =
        .error (.apiError (some 404))) ∧
    isNonRetryable (.apiError (some 404)) = true ∧
    withRetry (fun _ => .error (.apiError (some 404)) : Nat → Except JsError Nat) 3 =
      .error (.apiError (some 404)) ∧
    (1 : Nat) ≤ 3 ∧
    ((fun n => if n = 0 then .error .retryableError else .ok 7 : Nat → Except JsError Nat) 1 =
        .ok 7) ∧
    withRetry (fun n => if n = 0 then .error .retryableError else .ok 7 :
      Nat → Except JsError Nat) 3 = .ok 7 ∧
    withRetry (fun _ => (.ok 1 : Except JsError Nat)) 2 =
      withRetry (fun _ => (.ok 1 : Except JsError Nat)) 2 ∧
    (0 : ℚ) ≤ 1000 ∧ (1 : ℚ) ≤ 2 ∧
    retryDelay 1000 2 10000 0 ≤ retryDelay 1000 2 10000 1 :=
  ⟨rfl, by decide,
   C8_amended.1 (fun _ => .error (.apiError (some 404))) 3 _ rfl (by decide),
   by decide, rfl,
   C8_amended.2.1 (fun n => if n = 0 then .error .retryableError else .ok 7) 3 1 7
     (by decide)
     (fun j hj => ⟨.retryableError, by
        interval_cases j
        · rfl, by decide⟩)
     rfl,
   C8_amended.2.2.1 (fun _ => .ok 1) (fun _ => .ok 1) 2 (fun _ _ => rfl),
   by norm_num, by norm_num,
   C8_amended.2.2.2.2.2.2 1000 2 10000 0 1 (by norm_num) (by norm_num) (by decide)⟩

/-- C9: among the wallet's recent fills with the same instrument and the
same implied direction (side `'B'` implies LONG, anything else SHORT),
`findRelevantFill` returns a fill with the greatest `time` value — never
merely the first matching one — and returns `none` exactly when no fill
matches (or the fills payload is null), in which case `processPosition`
falls back to the snapshot's average entry price and the current time. -/
theorem C9_most_recent_fill :
    (∀ pair pt, findRelevantFill none pair pt = none) ∧
    (∀ (fills : List Fill) pair pt, findRelevantFill (some fills) pair pt = none ↔
        fills.filter (fun f => fillMatches f pair pt) = []) ∧
    (∀ (fills : List Fill) pair pt f, findRelevantFill (some fills) pair pt = some f →
        f ∈ fills ∧ fillMatches f pair pt = true ∧
        ∀ g ∈ fills, fillMatches g pair pt = true → g.time ≤ f.time) ∧
    (∀ (now : Nat) (entryPx : ℚ),
        entryTimestampOf none now = now ∧ actualEntryPriceOf none entryPx = entryPx) := by
  have htrans : ∀ a b c : Fill, (fun a b : Fill => decide (b.time ≤ a.time)) a b →
      (fun a b : Fill => decide (b.time ≤ a.time)) b c →
      (fun a b : Fill => decide (b.time ≤ a.time)) a c := by
    intro a b c hab hbc
    simp only [decide_eq_true_eq] at *
    exact le_trans hbc hab
  have htotal : ∀ a b : Fill, (fun a b : Fill => decide (b.time ≤ a.time)) a b ||
      (fun a b : Fill => decide (b.time ≤ a.time)) b a := by
    intro a b
    simp only [Bool.or_eq_true, decide_eq_true_eq]
    exact (Nat.le_total b.time a.time).elim Or.inl Or.inr
  refine ⟨fun pair pt => rfl, ?_, ?_, fun now entryPx => ⟨rfl, rfl⟩⟩
  · intro fills pair pt
    simp only [findRelevantFill, List.head?_eq_none_iff]
    rw [← List.length_eq_zero, List.length_mergeSort, List.length_eq_zero]
  · intro fills pair pt f h
    simp only [findRelevantFill] at h
    set sorted := (fills.filter (fun f => fillMatches f pair pt)).mergeSort
      (fun a b => decide (b.time ≤ a.time)) with hsorted
    cases hs : sorted with
    | nil => rw [hs] at h; simp at h
    | cons a t =>
      rw [hs] at h
      simp only [List.head?_cons, Option.some_inj] at h
      subst h
      have hfmem : a ∈ sorted := by rw [hs]; exact List.mem_cons_self a t
      have hfilter : a ∈ fills.filter (fun f => fillMatches f pair pt) :=
        List.mem_mergeSort.mp hfmem
      obtain ⟨hmem, hmatch⟩ := List.mem_filter.mp hfilter
      refine ⟨hmem, hmatch, ?_⟩
      intro g hg hgm
      have hgs : g ∈ sorted :=
        List.mem_mergeSort.mpr (List.mem_filter.mpr ⟨hg, hgm⟩)
      rw [hs] at hgs
      rcases List.mem_cons.mp hgs with rfl | hgt
      · exact le_refl _
      · have hp : sorted.Pairwise (fun a b : Fill => decide (b.time ≤ a.time)) :=
          List.sorted_mergeSort htrans htotal _
        rw [hs] at hp
        have := (List.pairwise_cons.mp hp).1 g hgt
        simpa using this

/-- C9 witness: a concrete matching fill is selected and is maximal among
the matching fills. -/
theorem C9_most_recent_fill_witness :
    findRelevantFill (some [⟨"ETH", "B", 2450, 1000⟩]) "ETH" "LONG" =
      some ⟨"ETH", "B", 2450, 1000⟩ ∧
    ((⟨"ETH", "B", 2450, 1000⟩ : Fill) ∈ [(⟨"ETH", "B", 2450, 1000⟩ : Fill)] ∧
     fillMatches ⟨"ETH", "B", 2450, 1000⟩ "ETH" "LONG" = true ∧
     ∀ g ∈ [(⟨"ETH", "B", 2450, 1000⟩ : Fill)], fillMatches g "ETH" "LONG" = true →
       g.time ≤ (⟨"ETH", "B", 2450, 1000⟩ : Fill).time) :=
  ⟨by simp [findRelevantFill, fillMatches],
   C9_most_recent_fill.2.2.1 [⟨"ETH", "B", 2450, 1000⟩] "ETH" "LONG"
     ⟨"ETH", "B", 2450, 1000⟩ (by simp [findRelevantFill, fillMatches])⟩

/-- C6: the idempotency key is a deterministic function of wallet,
instrument, direction and the entry timestamp rounded down to the minute —
two timestamps in the same minute give equal keys — and when the computed
key is already in the `ingested_events` store, `processPosition` returns
normally without touching the state: no second Position is stored, nothing
is queued, and no error is raised. -/
theorem C6_idempotency_key :
    (∀ w p d (t1 t2 : Nat), t1 / 60000 = t2 / 60000 →
      generateEventId w p t1 d = generateEventId w p t2 d) ∧
    (∀ (w coin : String) (position : HlPosition) (uf : Option (List Fill))
       (cfg : IngestConfig) (st : IngestState) (now : Nat) (fr : ℚ) (f1 f2 : Bool),
      position.szi ≠ 0 →
      coin ∉ cfg.ignored_pairs →
      (cfg.monitored_pairs = [] ∨ coin ∈ cfg.monitored_pairs) →
      ¬ calculateNotionalValue position.entryPx |position.szi| < cfg.min_trade_size →
      ¬ position.leverage < cfg.required_leverage_min →
      ingestionEventId w coin position.szi uf now ∈ st.events →
      processPosition w ⟨coin, some position⟩ uf cfg st now fr f1 f2 = (st, .ok)) := by
  constructor
  · intro w p d t1 t2 h
    simp only [generateEventId, h]
  · intro w coin position uf cfg st now fr f1 f2 h1 h2 h3 h4 h5 hkey
    have h3' : ¬(cfg.monitored_pairs ≠ [] ∧ coin ∉ cfg.monitored_pairs) := by
      rcases h3 with h | h <;> simp [h]
    have hkey' : generateEventId w coin
        (entryTimestampOf (findRelevantFill uf coin (positionTypeOf position.szi)) now)
        (positionTypeOf position.szi) ∈ st.events := by
      simpa [ingestionEventId] using hkey
    simp [processPosition, h1, h2, h3', h4, h5, hkey']

/-- C6 witness: a position whose key is already stored passes every filter
and leaves the state exactly as it was, with a normal return. -/
theorem C6_idempotency_key_witness :
    ((1 : ℚ) ≠ 0) ∧
    ("ETH" ∉ ([] : List String)) ∧
    (([] : List String) = [] ∨ "ETH" ∈ ([] : List String)) ∧
    (¬ calculateNotionalValue 100 |(1 : ℚ)| < (0 : ℚ)) ∧
    (¬ (5 : Nat) < 0) ∧
    (ingestionEventId "0xabc" "ETH" 1 none 0 ∈ [ingestionEventId "0xabc" "ETH" 1 none 0]) ∧
    processPosition "0xabc" ⟨"ETH", some ⟨1, 100, 5⟩⟩ none ⟨[], [], 0, 0⟩
      ⟨[ingestionEventId "0xabc" "ETH" 1 none 0], [], []⟩ 0 0 false false =
      (⟨[ingestionEventId "0xabc" "ETH" 1 none 0], [], []⟩, .ok) := by
  have h1 : (1 : ℚ) ≠ 0 := by norm_num
  have h4 : ¬ calculateNotionalValue 100 |(1 : ℚ)| < (0 : ℚ) := by
    norm_num [calculateNotionalValue]
  refine ⟨h1, by simp, Or.inl rfl, h4, by decide, by simp, ?_⟩
  exact C6_idempotency_key.2 "0xabc" "ETH" ⟨1, 100, 5⟩ none ⟨[], [], 0, 0⟩
    ⟨[ingestionEventId "0xabc" "ETH" 1 none 0], [], []⟩ 0 0 false false
    h1 (by simp) (Or.inl rfl) h4 (by decide) (by simp)

/-- C7 counterexample: persisting the Position and recording the
idempotency key is not both-or-neither. `Promise.all` issues the two writes
independently and `saveEvent` swallows its own failures, so a run in which
`saveWalletPosition` fails while `saveEvent` succeeds ends in an error with
the idempotency key recorded and no Position row. -/
theorem C7_counterexample :
    (processPosition "0xabc" ⟨"ETH", some ⟨1, 100, 5⟩⟩ none ⟨[], [], 0, 0⟩ ⟨[], [], []⟩
        0 0 true false).2 = .error ∧
    (processPosition "0xabc" ⟨"ETH", some ⟨1, 100, 5⟩⟩ none ⟨[], [], 0, 0⟩ ⟨[], [], []⟩
        0 0 true false).1.positions = [] ∧
    (processPosition "0xabc" ⟨"ETH", some ⟨1, 100, 5⟩⟩ none ⟨[], [], 0, 0⟩ ⟨[], [], []⟩
        0 0 true false).1.events = [ingestionEventId "0xabc" "ETH" 1 none 0] := by
  refine ⟨?_, ?_, ?_⟩ <;>
  · simp [processPosition, ingestionEventId, positionTypeOf, entryTimestampOf,
          actualEntryPriceOf, findRelevantFill, calculateNotionalValue]
    norm_num

/-- C7 amended: the Position row and the idempotency key are written by two
independent statements issued together, with no transaction. When both
writes succeed, both rows exist and ingestion returns normally; when the
Position write fails and the key write succeeds, ingestion errors but the
key is still recorded while the Position is not — the key write is not
rolled back. -/
theorem C7_amended :
    ∀ (w coin : String) (position : HlPosition) (uf : Option (List Fill))
      (cfg : IngestConfig) (st : IngestState) (now : Nat) (fr : ℚ),
      position.szi ≠ 0 →
      coin ∉ cfg.ignored_pairs →
      (cfg.monitored_pairs = [] ∨ coin ∈ cfg.monitored_pairs) →
      ¬ calculateNotionalValue position.entryPx |position.szi| < cfg.min_trade_size →
      ¬ position.leverage < cfg.required_leverage_min →
      ingestionEventId w coin position.szi uf now ∉ st.events →
      ((processPosition w ⟨coin, some position⟩ uf cfg st now fr false false).2 = .ok ∧
       (processPosition w ⟨coin, some position⟩ uf cfg st now fr false false).1.events =
         st.events ++ [ingestionEventId w coin position.szi uf now] ∧
       (∃ np, (processPosition w ⟨coin, some position⟩ uf cfg st now fr false
           false).1.positions = st.positions ++ [np] ∧
         np.open_event_id = ingestionEventId w coin position.szi uf now)) ∧
      ((processPosition w ⟨coin, some position⟩ uf cfg st now fr true false).2 = .error ∧
       (processPosition w ⟨coin, some position⟩ uf cfg st now fr true false).1.events =
         st.events ++ [ingestionEventId w coin position.szi uf now] ∧
       (processPosition w ⟨coin, some position⟩ uf cfg st now fr true false).1.positions =
         st.positions) := by
  intro w coin position uf cfg st now fr h1 h2 h3 h4 h5 hkey
  have h3' : ¬(cfg.monitored_pairs ≠ [] ∧ coin ∉ cfg.monitored_pairs) := by
    rcases h3 with h | h <;> simp [h]
  have hkey' : generateEventId w coin
      (entryTimestampOf (findRelevantFill uf coin (positionTypeOf position.szi)) now)
      (positionTypeOf position.szi) ∉ st.events := by
    simpa [ingestionEventId] using hkey
  refine ⟨⟨?_, ?_, ?_⟩, ?_, ?_, ?_⟩
  · simp [processPosition, h1, h2, h3', h4, h5, hkey']
  · simp [processPosition, h1, h2, h3', h4, h5, hkey', ingestionEventId]
  · refine ⟨⟨w, coin, positionTypeOf position.szi,
      entryTimestampOf (findRelevantFill uf coin (positionTypeOf position.szi)) now,
      actualEntryPriceOf (findRelevantFill uf coin (positionTypeOf position.szi))
        position.entryPx,
      |position.szi|, position.leverage, fr, now,
      ingestionEventId w coin position.szi uf now⟩, ?_, rfl⟩
    simp [processPosition, h1, h2, h3', h4, h5, hkey', ingestionEventId]
  · simp [processPosition, h1, h2, h3', h4, h5, hkey']
  · simp [processPosition, h1, h2, h3', h4, h5, hkey', ingestionEventId]
  · simp [processPosition, h1, h2, h3', h4, h5, hkey']

/-- C7 amended, witness: the two flag settings at one concrete fresh
position. -/
theorem C7_amended_witness :
    ((1 : ℚ) ≠ 0) ∧
    (ingestionEventId "0xabc" "ETH" 1 none 0 ∉ ([] : List String)) ∧
    ((processPosition "0xabc" ⟨"ETH", some ⟨1, 100, 5⟩⟩ none ⟨[], [], 0, 0⟩ ⟨[], [], []⟩
        0 0 false false).2 = .ok ∧
     (processPosition "0xabc" ⟨"ETH", some ⟨1, 100, 5⟩⟩ none ⟨[], [], 0, 0⟩ ⟨[], [], []⟩
        0 0 false false).1.events = [] ++ [ingestionEventId "0xabc" "ETH" 1 none 0] ∧
     (∃ np, (processPosition "0xabc" ⟨"ETH", some ⟨1, 100, 5⟩⟩ none ⟨[], [], 0, 0⟩
         ⟨[], [], []⟩ 0 0 false false).1.positions = [] ++ [np] ∧
       np.open_event_id = ingestionEventId "0xabc" "ETH" 1 none 0)) ∧
    ((processPosition "0xabc" ⟨"ETH", some ⟨1, 100, 5⟩⟩ none ⟨[], [], 0, 0⟩ ⟨[], [], []⟩
        0 0 true false).2 = .error ∧
     (processPosition "0xabc" ⟨"ETH", some ⟨1, 100, 5⟩⟩ none ⟨[], [], 0, 0⟩ ⟨[], [], []⟩
        0 0 true false).1.events = [] ++ [ingestionEventId "0xabc" "ETH" 1 none 0] ∧
     (processPosition "0xabc" ⟨"ETH", some ⟨1, 100, 5⟩⟩ none ⟨[], [], 0, 0⟩ ⟨[], [], []⟩
        0 0 true false).1.positions = []) := by
  have h1 : (1 : ℚ) ≠ 0 := by norm_num
  have h4 : ¬ calculateNotionalValue 100 |(1 : ℚ)| < (0 : ℚ) := by
    norm_num [calculateNotionalValue]
  have hmain := C7_amended "0xabc" "ETH" ⟨1, 100, 5⟩ none ⟨[], [], 0, 0⟩ ⟨[], [], []⟩ 0 0
    h1 (by simp) (Or.inl rfl) h4 (by decide) (by simp)
  exact ⟨h1, by simp, hmain.1, hmain.2⟩

end HLSignals
